import Mathlib

/-!
Shallow embedding of the spacebrr-api session/subscription/webhook core:
the OAuth state tracker, the SQLite-backed session store (src/db.ts), and
the route handlers of the gateway server (src/unnamed/part_002) that the
claims concern.  JavaScript `Map`s and SQLite tables are modelled as lists,
timestamps as `Nat` (milliseconds for `Date.now`, seconds for `unixepoch`),
and possibly-absent strings as `Option String`.  JavaScript truthiness of a
string (absent or empty counts as false) is made explicit.
-/

namespace Spacebrr

/-- Truthiness of an optional JS string: `undefined` and the empty string
are falsy (`if (!code)`, `if (!state)`, `if (sessionId && ...)`). -/
def strTruthy : Option String → Bool
  | none => false
  | some s => !(s == "")

/-! ## OAuth State Tracker

Models `const oauthStates = new Map<string, { created: number, frontendRedirect?: string }>()`
(src/unnamed/part_002 line 47) as an association list keyed by the state string. -/

/-- Value stored per OAuth state: creation time (ms) and optional frontend
redirect target (src/unnamed/part_002 line 55). -/
structure OAuthState where
  created : Nat
  frontendRedirect : Option String
deriving DecidableEq

/-- The OAuth state map.  `Map.set` with a fresh random key is modelled by
consing; real keys are `randomUUID()` values so they are never duplicated. -/
abbrev StateMap := List (String × OAuthState)

/-- Models `oauthStates.get(s)` / `oauthStates.has(s)` (presence is
`lookupState m s ≠ none`): first entry with the given key. -/
def lookupState (m : StateMap) (s : String) : Option OAuthState :=
  (m.find? (fun p => p.1 == s)).map (fun p => p.2)

/-- Models `oauthStates.delete(s)` (src/unnamed/part_002 line 73). -/
def deleteState (m : StateMap) (s : String) : StateMap :=
  m.filter (fun p => !(p.1 == s))

/-- Outcome of the state-validation part of the GitHub OAuth callback
(src/unnamed/part_002 lines 60-77).  `success` carries the stored entry,
meaning the handler proceeds to the token exchange. -/
inductive ConsumeResult where
  | invalidState
  | expired
  | success (data : OAuthState)
deriving DecidableEq

/-- Models src/unnamed/part_002 lines 68-77: the single-use consumption of
an OAuth state value inside the callback handler.  Returns the outcome and
the updated state map.  Follows the source exactly: missing/empty state or
absent key gives the 400 "Invalid or missing state parameter" response with
the map untouched; otherwise the entry is read, deleted, and then the
10-minute expiry (`Date.now() - stateData.created > 600000`) is checked. -/
def consume (m : StateMap) (state : Option String) (now : Nat) :
    ConsumeResult × StateMap :=
  match state with
  | none => (.invalidState, m)
  | some s =>
    if s == "" then (.invalidState, m)
    else
      match lookupState m s with
      | none => (.invalidState, m)
      | some stateData =>
        let m' := deleteState m s
        if now - stateData.created > 600000 then (.expired, m')
        else (.success stateData, m')

/-- Outcome of the whole callback handler's early phase
(src/unnamed/part_002 lines 60-77): the `!code` check at lines 64-66 runs
before the state parameter is even looked at. -/
inductive CallbackResult where
  | noCode
  | invalidState
  | expired
  | success (data : OAuthState)
deriving DecidableEq

/-- Models `GET /auth/github/callback` lines 60-77: `if (!code)` returns
"No code provided" with the state map untouched; only then is the state
validated and consumed. -/
def githubCallback (m : StateMap) (code : Option String) (state : Option String)
    (now : Nat) : CallbackResult × StateMap :=
  if !(strTruthy code) then (.noCode, m)
  else
    match consume m state now with
    | (.invalidState, m') => (.invalidState, m')
    | (.expired, m') => (.expired, m')
    | (.success d, m') => (.success d, m')

/-- Results of consuming the same state value repeatedly, one consume per
listed time. -/
def consumeSeq (m : StateMap) (s : String) : List Nat → List ConsumeResult
  | [] => []
  | t :: ts =>
    let r := consume m (some s) t
    r.1 :: consumeSeq r.2 s ts

/-- Whether a consume outcome is the success case. -/
def isSuccess : ConsumeResult → Bool
  | .success _ => true
  | _ => false

/-! ## Session Store (src/db.ts)

The `sessions` table is a list of rows; `id` is the PRIMARY KEY, so real
stores never hold two rows with the same id.  SQL `UPDATE ... WHERE id = ?`
is modelled as a map over all rows matching the id, and `SELECT ... WHERE`
with `.get` as the first match. -/

/-- One row of the `sessions` table (src/db.ts lines 16-29). -/
structure SessionRow where
  id : String
  token : String
  githubUser : String
  customerId : Option String
  subscriptionStatus : Option String
  createdAt : Nat
  updatedAt : Nat
deriving DecidableEq

/-- The `Session` interface returned by queries (src/db.ts lines 31-37):
timestamps are not selected. -/
structure Session where
  id : String
  token : String
  githubUser : String
  customerId : Option String
  subscriptionStatus : Option String
deriving DecidableEq

/-- Projection of a row to the selected columns of `getSession` /
`findSessionsByCustomerId`. -/
def rowToSession (r : SessionRow) : Session :=
  ⟨r.id, r.token, r.githubUser, r.customerId, r.subscriptionStatus⟩

/-- The sessions table. -/
abbrev Store := List SessionRow

/-- Models `createSession` (src/db.ts lines 39-43): INSERT with null
customer/status and both timestamps defaulted to now. -/
def createSession (st : Store) (id token githubUser : String) (now : Nat) : Store :=
  st ++ [⟨id, token, githubUser, none, none, now, now⟩]

/-- Models `getSession` (src/db.ts lines 45-60): first row with the id, or
null.  Total: an unknown id yields `none`, never an exception. -/
def getSession (st : Store) (id : String) : Option Session :=
  (st.find? (fun r => r.id == id)).map rowToSession

/-- The partial-update argument of `updateSession`: `none` means the field
was not supplied (`!== undefined` in src/db.ts lines 66, 71). -/
structure SessionUpdates where
  customerId : Option String
  subscriptionStatus : Option String
deriving DecidableEq

/-- Effect of one collected UPDATE on a matching row: supplied fields are
overwritten, `updated_at = unixepoch()` is always pushed when any field is
supplied (src/db.ts line 78). -/
def applyUpdates (u : SessionUpdates) (now : Nat) (r : SessionRow) : SessionRow :=
  { r with
    customerId := match u.customerId with
      | some c => some c
      | none => r.customerId
    subscriptionStatus := match u.subscriptionStatus with
      | some v => some v
      | none => r.subscriptionStatus
    updatedAt := now }

/-- Models `updateSession` (src/db.ts lines 62-84): when neither field is
supplied the function returns before touching the database (line 76);
otherwise every row whose id matches is rewritten.  Total: an unknown id
simply matches no row. -/
def updateSession (st : Store) (id : String) (u : SessionUpdates) (now : Nat) : Store :=
  if u.customerId = none ∧ u.subscriptionStatus = none then st
  else st.map (fun r => if r.id == id then applyUpdates u now r else r)

/-- Models `findSessionsByCustomerId` (src/db.ts lines 86-99): all rows
whose `customer_id` equals the argument (SQL `=` never matches NULL). -/
def findSessionsByCustomerId (st : Store) (customerId : String) : List Session :=
  (st.filter (fun r => r.customerId == some customerId)).map rowToSession

/-! ## Bearer-token resolution in the gateway router

Four handlers — `GET /api/repos` (lines 131-137), `POST /api/provision`
(lines 215-219), `POST /api/checkout` (lines 315-319) and
`GET /api/subscription` (lines 352-356) of src/unnamed/part_002 — share the
identical three lines:

  const sessionId = req.headers.authorization?.replace('Bearer ', '')
  const session = sessionId ? getSession(sessionId) : null
  if (!session) return res.status(401).json({ error: 'Unauthorized' })

`String.prototype.replace` with a string pattern removes only the FIRST
occurrence of the pattern. -/

/-- Removal of the first occurrence of `pat` from a character list,
matching the JavaScript `s.replace(pat, '')` for a string pattern. -/
def removeFirst (pat : List Char) : List Char → List Char
  | [] => []
  | c :: rest =>
    if pat.isPrefixOf (c :: rest) then (c :: rest).drop pat.length
    else c :: removeFirst pat rest

/-- Models `req.headers.authorization?.replace('Bearer ', '')`: `none` when
the Authorization header is absent. -/
def bearerSessionId (auth : Option String) : Option String :=
  match auth with
  | none => none
  | some h => some (removeFirst "Bearer ".toList h.toList).asString

/-- The shared bearer-token resolution of the four handlers listed above:
the extracted id (falsy when empty) is looked up in the session store, and
`none` — mapped by each handler to the single 401 `Unauthorized` body — is
returned both when the header is absent and when the id is unknown. -/
def resolveSession (st : Store) (auth : Option String) : Option Session :=
  match bearerSessionId auth with
  | none => none
  | some sid => if sid == "" then none else getSession st sid

/-- Models the guard of `PATCH /api/tasks/:id/close` (src/unnamed/part_002
lines 276-281): `if (!authHeader || !authHeader.startsWith('Bearer '))`
returns 401.  The session store is never consulted. -/
def taskCloseUnauthorized (auth : Option String) : Bool :=
  match auth with
  | none => true
  | some h => h == "" || !("Bearer ".toList.isPrefixOf h.toList)

/-- Models the authorization behaviour of `GET /api/ledger/:projectId`
(src/unnamed/part_002 lines 263-274): the handler contains no authorization
check of any kind, so it never returns 401. -/
def ledgerUnauthorized (_auth : Option String) : Bool :=
  false

/-! ## Subscription read (src/unnamed/part_002 lines 351-363) -/

/-- The JSON body of a successful `GET /api/subscription` response. -/
structure SubscriptionResponse where
  customer_id : Option String
  status : String
deriving DecidableEq

/-- Models `GET /api/subscription`: resolve the bearer token; on success
reply with the stored customer id and `session.subscriptionStatus || 'none'`
(JS `||` maps both an absent and an empty status to `"none"`).  A `none`
result is the 401 Unauthorized response. -/
def subscriptionRead (st : Store) (auth : Option String) : Option SubscriptionResponse :=
  match resolveSession st auth with
  | none => none
  | some s =>
    some ⟨s.customerId,
      match s.subscriptionStatus with
      | none => "none"
      | some v => if v == "" then "none" else v⟩

/-! ## Session/Subscription Reconciler (src/unnamed/part_002 lines 365-402)

The Stripe webhook handler, after signature verification (external), applies
two event kinds to the session store and replies `{ received: true }`; both
branches below are total, so no error is raised to the caller. -/

/-- Models the `checkout.session.completed` branch (lines 375-386):
`if (sessionId && getSession(sessionId))` guards the update, so an absent or
empty metadata session id, or an id with no stored session, leaves the store
untouched and creates nothing. -/
def applyCheckoutCompleted (st : Store) (sessionId : Option String)
    (customerId : String) (now : Nat) : Store :=
  match sessionId with
  | none => st
  | some sid =>
    if sid == "" then st
    else
      match getSession st sid with
      | none => st
      | some _ => updateSession st sid ⟨some customerId, some "active"⟩ now

/-- Models the `customer.subscription.updated` / `customer.subscription.deleted`
branch (lines 388-396): fetch all sessions of the customer once, then update
each one's `subscriptionStatus` to the event's status string verbatim. -/
def applySubscriptionEvent (st : Store) (customerId status : String) (now : Nat) : Store :=
  (findSessionsByCustomerId st customerId).foldl
    (fun acc s => updateSession acc s.id ⟨none, some status⟩ now) st

/-! ## Helper lemmas -/

/-- Deleting a state value removes every entry for it. -/
theorem lookupState_deleteState (m : StateMap) (s : String) :
    lookupState (deleteState m s) s = none := by
  have hfind : (deleteState m s).find? (fun p => p.1 == s) = none := by
    rw [List.find?_eq_none]
    intro p hp
    have := (List.mem_filter.mp hp).2
    simpa using this
  simp [lookupState, hfind]

/-- Consuming an absent state value is rejected as invalid and leaves the
map untouched. -/
theorem consume_of_lookup_none {m : StateMap} {s : String} (t : Nat)
    (h : lookupState m s = none) :
    consume m (some s) t = (.invalidState, m) := by
  by_cases hs : s = "" <;> simp [consume, hs, h]

/-- A list is a Boolean prefix of itself followed by anything. -/
theorem isPrefixOf_append (l r : List Char) : l.isPrefixOf (l ++ r) = true := by
  induction l with
  | nil => simp [List.isPrefixOf]
  | cons c l ih => simp [List.isPrefixOf, ih]

/-- Removing the first occurrence of a non-empty pattern from a string that
starts with it leaves exactly the remainder. -/
theorem removeFirst_append (pat rest : List Char) (hne : pat ≠ []) :
    removeFirst pat (pat ++ rest) = rest := by
  cases pat with
  | nil => exact absurd rfl hne
  | cons c cs =>
    rw [List.cons_append, removeFirst, ← List.cons_append,
      if_pos (isPrefixOf_append (c :: cs) rest), List.drop_left]

/-- A header of the shape `Bearer <sid>` resolves through the session
store: the shared three-line guard looks the extracted id up with
`getSession`. -/
theorem resolveSession_bearer (st : Store) (sid : String) (h : ¬ sid = "") :
    resolveSession st (some ("Bearer " ++ sid)) = getSession st sid := by
  have h1 : bearerSessionId (some ("Bearer " ++ sid)) = some sid := by
    show some (removeFirst "Bearer ".toList ("Bearer " ++ sid).toList).asString = some sid
    have hdata : ("Bearer " ++ sid).toList = "Bearer ".toList ++ sid.toList := by
      simp [String.toList, String.data_append]
    rw [hdata, removeFirst_append _ _ (by decide)]
    cases sid
    rfl
  simp only [resolveSession]
  rw [h1]
  simp [h]

/-- A consume that succeeds has deleted its state value: the value no
longer resolves in the returned map. -/
theorem consume_success_lookup {m : StateMap} {s : String} {t : Nat}
    (h : isSuccess (consume m (some s) t).1 = true) :
    lookupState (consume m (some s) t).2 s = none := by
  by_cases hs : s = ""
  · simp [consume, hs, isSuccess] at h
  · cases hlook : lookupState m s with
    | none => simp [consume, hs, hlook, isSuccess] at h
    | some d =>
      by_cases hexp : t - d.created > 600000
      · simp [consume, hs, hlook, hexp, isSuccess] at h
      · simp [consume, hs, hlook, hexp, lookupState_deleteState]

/-- Once a state value no longer resolves, every further consume of it is
rejected as InvalidState. -/
theorem consumeSeq_of_lookup_none (m : StateMap) (s : String)
    (h : lookupState m s = none) (ts : List Nat) :
    consumeSeq m s ts = List.replicate ts.length .invalidState := by
  induction ts with
  | nil => rfl
  | cons t ts ih =>
    simp only [consumeSeq, consume_of_lookup_none t h]
    simp [ih, List.replicate_succ]

/-- Finding a row by id commutes with a row transformation that preserves
ids. -/
theorem find?_map_of_id_preserving (st : Store) (f : SessionRow → SessionRow)
    (hf : ∀ r, (f r).id = r.id) (sid : String) :
    (st.map f).find? (fun r => r.id == sid) = (st.find? (fun r => r.id == sid)).map f := by
  induction st with
  | nil => rfl
  | cons r st ih =>
    by_cases h : (r.id == sid) = true
    · simp [List.find?, hf r, h]
    · simp only [List.map_cons, List.find?, hf r,
        Bool.not_eq_true] at h ⊢
      rw [h]
      exact ih

/-- Folding the webhook's per-session status update over a list of ids is
one map over the store: rows whose id occurs in the list get the new
status and timestamp, all others are untouched. -/
theorem foldl_update_eq_map (status : String) (now : Nat) (ids : List String)
    (st : Store) :
    ids.foldl (fun acc i => updateSession acc i ⟨none, some status⟩ now) st
      = st.map (fun r => if r.id ∈ ids
          then { r with subscriptionStatus := some status, updatedAt := now }
          else r) := by
  induction ids generalizing st with
  | nil => simp
  | cons i ids ih =>
    rw [List.foldl_cons, ih]
    have hupd : updateSession st i ⟨none, some status⟩ now
        = st.map (fun r => if r.id == i
            then { r with subscriptionStatus := some status, updatedAt := now }
            else r) := by
      rw [updateSession, if_neg (by simp)]
      apply congrArg (fun f => List.map f st)
      funext r
      by_cases h : (r.id == i) = true <;> simp [h, applyUpdates]
    rw [hupd, List.map_map]
    apply congrArg (fun f => List.map f st)
    funext r
    by_cases h1 : r.id = i
    · by_cases h2 : r.id ∈ ids <;> simp [Function.comp, h1, h2, List.mem_cons]
    · simp [Function.comp, h1, List.mem_cons]

/-! ## Claims -/

/-- C1, counterexample.  The claim that every endpoint the spec lists as
authenticated resolves the bearer token to a stored Session and rejects
with Unauthorized otherwise is false at a concrete input: against an empty
session store, the task-close handler accepts the header
`Bearer deadbeef` (it is not rejected as Unauthorized) even though the
token resolves to no stored session, and the ledger-read handler never
rejects even a request with no Authorization header at all. -/
theorem c1_counterexample :
    taskCloseUnauthorized (some "Bearer deadbeef") = false ∧
    resolveSession [] (some "Bearer deadbeef") = none ∧
    ledgerUnauthorized none = false := by
  refine ⟨by decide, by decide, rfl⟩

/-- C1, amended.  The repo-listing, provisioning, checkout-creation and
subscription-read handlers resolve the bearer token through the session
store and return the single Unauthorized rejection both when the header is
absent and when the extracted id is unknown (the rejection value is the
same `none`, so the two cases are indistinguishable); the task-close
handler rejects exactly the requests whose header is absent, empty, or
lacks the `Bearer ` prefix, never consulting the store (it does not take
the store as an input at all); the ledger-read handler performs no
authentication. -/
theorem c1_auth_amended (st : Store) (sid : String) :
    resolveSession st none = none
    ∧ (¬ sid = "" → resolveSession st (some ("Bearer " ++ sid)) = getSession st sid)
    ∧ taskCloseUnauthorized (some ("Bearer " ++ sid)) = false
    ∧ taskCloseUnauthorized none = true
    ∧ ∀ auth, ledgerUnauthorized auth = false := by
  refine ⟨rfl, resolveSession_bearer st sid, ?_, rfl, fun _ => rfl⟩
  have hpre : "Bearer ".toList.isPrefixOf ("Bearer " ++ sid).toList = true := by
    have hdata : ("Bearer " ++ sid).toList = "Bearer ".toList ++ sid.toList := by
      simp [String.toList, String.data_append]
    rw [hdata]
    exact isPrefixOf_append _ _
  have hne : ("Bearer " ++ sid == "") = false := by
    have : "Bearer " ++ sid ≠ "" := by
      intro hcontra
      have := congrArg String.toList hcontra
      simp [String.toList, String.data_append] at this
    simpa using this
  simp [taskCloseUnauthorized, hpre, hne]

/-- C1, witness for the amended theorem: at the empty store and id `x`,
an unknown `Bearer x` token resolves through the store to nothing. -/
theorem c1_auth_amended_witness :
    resolveSession [] (some ("Bearer " ++ "x")) = getSession [] "x" :=
  (c1_auth_amended [] "x").2.1 (by decide)

/-- C2. For every OAuth state value, in any sequence of consume calls
presenting that value (one per listed time), at most one call succeeds, and
every call made after a successful one is rejected as InvalidState. -/
theorem c2_state_single_use (m : StateMap) (s : String) (ts : List Nat) :
    (consumeSeq m s ts).countP (fun r => isSuccess r) ≤ 1
    ∧ ∀ pre r post, consumeSeq m s ts = pre ++ r :: post →
        isSuccess r = true → ∀ x ∈ post, x = ConsumeResult.invalidState := by
  induction ts generalizing m with
  | nil =>
    constructor
    · simp [consumeSeq]
    · intro pre r post heq
      exact absurd heq (by simp [consumeSeq])
  | cons t ts ih =>
    have hseq : consumeSeq m s (t :: ts)
        = (consume m (some s) t).1 :: consumeSeq (consume m (some s) t).2 s ts := rfl
    by_cases hr : isSuccess (consume m (some s) t).1 = true
    · have htail : consumeSeq (consume m (some s) t).2 s ts
          = List.replicate ts.length .invalidState :=
        consumeSeq_of_lookup_none _ s (consume_success_lookup hr) ts
      constructor
      · rw [hseq, htail, List.countP_cons]
        have hzero : (List.replicate ts.length ConsumeResult.invalidState).countP
            (fun r => isSuccess r) = 0 := by
          rw [List.countP_eq_zero]
          intro a ha
          rw [List.eq_of_mem_replicate ha]
          simp [isSuccess]
        simp [hzero, hr]
      · intro pre r post heq hsucc x hx
        rw [hseq, htail] at heq
        cases pre with
        | nil =>
          have hpost : post = List.replicate ts.length ConsumeResult.invalidState :=
            (List.cons.injEq _ _ _ _ ▸ heq :
              _ ∧ _).2.symm
          exact List.eq_of_mem_replicate (hpost ▸ hx)
        | cons p pre' =>
          have htl : List.replicate ts.length ConsumeResult.invalidState
              = pre' ++ r :: post := by
            have := congrArg List.tail heq
            simpa using this
          have hrmem : r ∈ List.replicate ts.length ConsumeResult.invalidState := by
            rw [htl]
            exact List.mem_append_right _ (List.mem_cons_self r post)
          rw [List.eq_of_mem_replicate hrmem] at hsucc
          simp [isSuccess] at hsucc
    · refine ⟨?_, ?_⟩
      · rw [hseq, List.countP_cons]
        simpa [hr] using (ih (consume m (some s) t).2).1
      · intro pre r post heq hsucc x hx
        cases pre with
        | nil =>
          have hr0 : r = (consume m (some s) t).1 := by
            have := heq.symm.trans hseq
            exact (List.cons.injEq _ _ _ _ ▸ this : _ ∧ _).1
          rw [hr0] at hsucc
          exact absurd hsucc hr
        | cons p pre' =>
          have htl : consumeSeq (consume m (some s) t).2 s ts = pre' ++ r :: post := by
            have := congrArg List.tail (hseq.symm.trans heq)
            simpa using this
          exact (ih (consume m (some s) t).2).2 pre' r post htl hsucc x hx

/-- C2, witness: for state "s1" issued at time 0 and consumed at times 5,
6 and 7, the success count is at most one, and the calls after the first
(successful) one are InvalidState. -/
theorem c2_state_single_use_witness :
    (consumeSeq [("s1", ⟨0, none⟩)] "s1" [5, 6, 7]).countP (fun r => isSuccess r) ≤ 1
    ∧ ConsumeResult.invalidState = ConsumeResult.invalidState :=
  ⟨(c2_state_single_use [("s1", ⟨0, none⟩)] "s1" [5, 6, 7]).1,
   (c2_state_single_use [("s1", ⟨0, none⟩)] "s1" [5, 6, 7]).2
     [] (.success ⟨0, none⟩) [.invalidState, .invalidState] (by decide) (by decide)
     .invalidState (by decide)⟩

/-- C3, counterexample.  The claim that every callback presenting a stored
state token deletes it on first use even when the callback is rejected for
a missing authorization code is false: the `!code` guard runs before the
state map is touched, so a no-code callback presenting the stored state
"s1" leaves the map unchanged, and a second use of the same state value
afterwards succeeds. -/
theorem c3_counterexample :
    githubCallback [("s1", ⟨0, none⟩)] none (some "s1") 5
        = (.noCode, [("s1", ⟨0, none⟩)])
    ∧ (githubCallback [("s1", ⟨0, none⟩)] (some "c") (some "s1") 6).1
        = .success ⟨0, none⟩ := by
  refine ⟨rfl, rfl⟩

/-- C3, amended.  Every callback that presents a stored state token AND
carries a non-empty authorization code deletes that token immediately upon
first use, whether the state validation then succeeds or fails (expired
included), so the state value no longer resolves afterwards; a callback
rejected for a missing (or empty) authorization code, however, returns
before the state tracker is consulted and leaves the map unchanged, so the
same state value can still be consumed once afterwards. -/
theorem c3_state_deleted_amended (m : StateMap) (code : Option String)
    (s : String) (t : Nat) :
    (strTruthy code = true → ¬ s = "" →
      lookupState (githubCallback m code (some s) t).2 s = none)
    ∧ (strTruthy code = false → githubCallback m code (some s) t = (.noCode, m)) := by
  constructor
  · intro hc hs
    simp only [githubCallback, hc]
    cases hlook : lookupState m s with
    | none => simp [consume, hs, hlook]
    | some d =>
      simp only [consume, hlook]
      by_cases hexp : t - d.created > 600000 <;>
        simp [hs, hexp, lookupState_deleteState]
  · intro hc
    simp [githubCallback, hc]

/-- C3, witness for the amended theorem: with state "s1" stored and a
present code, the callback leaves "s1" unresolvable; with the code absent,
the callback replies noCode and leaves the map untouched. -/
theorem c3_state_deleted_amended_witness :
    lookupState (githubCallback [("s1", ⟨0, none⟩)] (some "c") (some "s1") 5).2 "s1" = none
    ∧ githubCallback [("s1", ⟨0, none⟩)] none (some "s1") 5
        = (.noCode, [("s1", ⟨0, none⟩)]) :=
  ⟨(c3_state_deleted_amended [("s1", ⟨0, none⟩)] (some "c") "s1" 5).1 (by decide) (by decide),
   (c3_state_deleted_amended [("s1", ⟨0, none⟩)] none "s1" 5).2 (by decide)⟩

/-- C4. Consuming a state token strictly more than 10 minutes
(600000 ms) after issuance signals Expired and removes the token, and any
following consume of the same value signals InvalidState (not Expired). -/
theorem c4_expired_consume (m : StateMap) (s : String) (d : OAuthState) (t : Nat)
    (hs : ¬ s = "") (hfound : lookupState m s = some d)
    (hold : t - d.created > 600000) :
    consume m (some s) t = (.expired, deleteState m s)
    ∧ ∀ t', consume (deleteState m s) (some s) t' = (.invalidState, deleteState m s) := by
  constructor
  · simp [consume, hs, hfound, hold]
  · intro t'
    exact consume_of_lookup_none t' (lookupState_deleteState m s)

/-- C4, witness: state "s1" issued at time 0 and consumed at 600001 ms is
Expired; consuming again at any later time (here 700000) is InvalidState. -/
theorem c4_expired_consume_witness :
    consume [("s1", ⟨0, some "https://app/x"⟩)] (some "s1") 600001
      = (.expired, deleteState [("s1", ⟨0, some "https://app/x"⟩)] "s1")
    ∧ consume (deleteState [("s1", ⟨0, some "https://app/x"⟩)] "s1") (some "s1") 700000
      = (.invalidState, deleteState [("s1", ⟨0, some "https://app/x"⟩)] "s1") :=
  ⟨(c4_expired_consume _ "s1" ⟨0, some "https://app/x"⟩ 600001
      (by decide) (by decide) (by decide)).1,
   (c4_expired_consume _ "s1" ⟨0, some "https://app/x"⟩ 600001
      (by decide) (by decide) (by decide)).2 700000⟩

/-- C5. A subscription-updated or subscription-deleted event sets
subscriptionStatus to the event's status string verbatim on every session
row whose customerId equals the event's customer id (and on nothing else),
so findSessionsByCustomerId afterwards returns all of those sessions with
the new status; an event matching zero sessions leaves the store unchanged
and, the handler being total, completes without error.  The hypothesis that
row ids are pairwise distinct is the sessions table's PRIMARY KEY. -/
theorem c5_subscription_fanout (st : Store) (cid status : String) (now : Nat)
    (hids : (st.map SessionRow.id).Nodup) :
    applySubscriptionEvent st cid status now
      = st.map (fun r => if r.customerId = some cid
          then { r with subscriptionStatus := some status, updatedAt := now }
          else r)
    ∧ findSessionsByCustomerId (applySubscriptionEvent st cid status now) cid
      = (findSessionsByCustomerId st cid).map
          (fun s => { s with subscriptionStatus := some status })
    ∧ (findSessionsByCustomerId st cid = [] →
        applySubscriptionEvent st cid status now = st) := by
  have hpart1 : applySubscriptionEvent st cid status now
      = st.map (fun r => if r.customerId = some cid
          then { r with subscriptionStatus := some status, updatedAt := now }
          else r) := by
    have hconv : (findSessionsByCustomerId st cid).foldl
        (fun acc s => updateSession acc s.id ⟨none, some status⟩ now) st
      = ((findSessionsByCustomerId st cid).map Session.id).foldl
          (fun acc i => updateSession acc i ⟨none, some status⟩ now) st := by
      rw [List.foldl_map]
    rw [applySubscriptionEvent, hconv, foldl_update_eq_map]
    apply List.map_congr_left
    intro r hr
    have hmem : r.id ∈ (findSessionsByCustomerId st cid).map Session.id
        ↔ r.customerId = some cid := by
      constructor
      · intro hin
        obtain ⟨s', hs'mem, hs'id⟩ := List.mem_map.mp hin
        obtain ⟨r', hr'mem, hr'eq⟩ := List.mem_map.mp hs'mem
        have hr'filter := List.mem_filter.mp hr'mem
        have hidr : r'.id = r.id := by
          rw [← hs'id, ← hr'eq]
          rfl
        have hr'r : r' = r :=
          List.inj_on_of_nodup_map hids hr'filter.1 hr hidr
        rw [← hr'r]
        simpa using hr'filter.2
      · intro hc
        apply List.mem_map.mpr
        refine ⟨rowToSession r, ?_, rfl⟩
        apply List.mem_map.mpr
        exact ⟨r, List.mem_filter.mpr ⟨hr, by simp [hc]⟩, rfl⟩
    by_cases hc : r.customerId = some cid
    · rw [if_pos (hmem.mpr hc), if_pos hc]
    · rw [if_neg (fun hin => hc (hmem.mp hin)), if_neg hc]
  refine ⟨hpart1, ?_, ?_⟩
  · rw [hpart1, findSessionsByCustomerId, List.filter_map]
    have hpG : ((fun r : SessionRow => r.customerId == some cid)
          ∘ (fun r => if r.customerId = some cid
              then { r with subscriptionStatus := some status, updatedAt := now }
              else r))
        = fun r : SessionRow => r.customerId == some cid := by
      funext r
      by_cases hc : r.customerId = some cid <;> simp [Function.comp, hc]
    rw [hpG, List.map_map, findSessionsByCustomerId, List.map_map]
    apply List.map_congr_left
    intro r hr
    have hc : r.customerId = some cid := by
      simpa using (List.mem_filter.mp hr).2
    simp [Function.comp, hc, rowToSession]
  · intro hempty
    rw [applySubscriptionEvent, hempty]
    rfl

/-- C5, witness: two sessions of customer cus_1 and one of cus_2; the
subscription-deleted event with status canceled updates both cus_1
sessions (and only them), and findSessionsByCustomerId returns both with
the new status; against the empty store the event is a no-op. -/
theorem c5_subscription_fanout_witness :
    findSessionsByCustomerId
      (applySubscriptionEvent
        [⟨"a", "tA", "octo", some "cus_1", some "active", 1, 1⟩,
         ⟨"b", "tB", "octo", some "cus_1", some "active", 1, 1⟩,
         ⟨"c", "tC", "zed", some "cus_2", some "active", 1, 1⟩] "cus_1" "canceled" 9)
      "cus_1"
      = (findSessionsByCustomerId
          [⟨"a", "tA", "octo", some "cus_1", some "active", 1, 1⟩,
           ⟨"b", "tB", "octo", some "cus_1", some "active", 1, 1⟩,
           ⟨"c", "tC", "zed", some "cus_2", some "active", 1, 1⟩] "cus_1").map
          (fun s => { s with subscriptionStatus := some "canceled" })
    ∧ applySubscriptionEvent [] "cus_1" "canceled" 9 = [] :=
  ⟨(c5_subscription_fanout
      [⟨"a", "tA", "octo", some "cus_1", some "active", 1, 1⟩,
       ⟨"b", "tB", "octo", some "cus_1", some "active", 1, 1⟩,
       ⟨"c", "tC", "zed", some "cus_2", some "active", 1, 1⟩]
      "cus_1" "canceled" 9 (by decide)).2.1,
   (c5_subscription_fanout [] "cus_1" "canceled" 9 (by decide)).2.2 rfl⟩

/-- C6. A checkout-completed event whose metadata session id does not refer
to an existing session leaves the session store entirely unchanged — in
particular no session is created — and, the handler being total, no error
is raised to the caller (the webhook replies received: true). -/
theorem c6_orphan_checkout (st : Store) (sid : String) (cid : String) (now : Nat)
    (h : getSession st sid = none) :
    applyCheckoutCompleted st (some sid) cid now = st := by
  by_cases hs : sid = "" <;> simp [applyCheckoutCompleted, hs, h]

/-- C6, witness: a forged session id against a store holding one unrelated
session changes nothing. -/
theorem c6_orphan_checkout_witness :
    applyCheckoutCompleted [⟨"a", "tokA", "octo", none, none, 1, 1⟩]
      (some "ghost") "cus_9" 99 = [⟨"a", "tokA", "octo", none, none, 1, 1⟩] :=
  c6_orphan_checkout _ "ghost" "cus_9" 99 (by decide)

/-- C7. A partial update of an existing session changes exactly the
supplied fields plus the modification timestamp on the rows matching the
id, leaves every unsupplied field of those rows and every other row
byte-for-byte untouched (the row count is also preserved), and an update
supplying neither field is a no-op that returns without touching the
store (so it cannot error). -/
theorem c7_update_frame (st : Store) (sid : String) (u : SessionUpdates) (now : Nat) :
    (updateSession st sid u now).length = st.length
    ∧ (u.customerId = none → u.subscriptionStatus = none →
        updateSession st sid u now = st)
    ∧ (∀ (i : Nat) (r0 : SessionRow), st[i]? = some r0 →
        (updateSession st sid u now)[i]? =
          some (if r0.id = sid ∧ ¬(u.customerId = none ∧ u.subscriptionStatus = none)
            then { r0 with
                   customerId := match u.customerId with
                     | some c => some c
                     | none => r0.customerId,
                   subscriptionStatus := match u.subscriptionStatus with
                     | some v => some v
                     | none => r0.subscriptionStatus,
                   updatedAt := now }
            else r0)) := by
  refine ⟨?_, ?_, ?_⟩
  · rw [updateSession]
    split
    · rfl
    · exact List.length_map _ _
  · intro h1 h2
    rw [updateSession, if_pos ⟨h1, h2⟩]
  · intro i r0 hi
    by_cases hno : u.customerId = none ∧ u.subscriptionStatus = none
    · rw [updateSession, if_pos hno, hi,
        if_neg (fun hcontra => hcontra.2 hno)]
    · rw [updateSession, if_neg hno, List.getElem?_map, hi]
      by_cases hid : r0.id = sid
      · simp [hid, hno, applyUpdates]
      · simp [hid, applyUpdates]

/-- C7, witness: on a two-session store, supplying only
subscriptionStatus for session "a" rewrites exactly that field and the
timestamp of row 0, leaves row 1 as it was, and the empty update is the
identity. -/
theorem c7_update_frame_witness :
    (updateSession [⟨"a", "tA", "octo", some "cus_1", none, 1, 1⟩,
        ⟨"b", "tB", "zed", none, none, 1, 1⟩] "a" ⟨none, none⟩ 9
      = [⟨"a", "tA", "octo", some "cus_1", none, 1, 1⟩,
        ⟨"b", "tB", "zed", none, none, 1, 1⟩])
    ∧ (updateSession [⟨"a", "tA", "octo", some "cus_1", none, 1, 1⟩,
        ⟨"b", "tB", "zed", none, none, 1, 1⟩] "a" ⟨none, some "active"⟩ 9)[0]?
      = some ⟨"a", "tA", "octo", some "cus_1", some "active", 1, 9⟩
    ∧ (updateSession [⟨"a", "tA", "octo", some "cus_1", none, 1, 1⟩,
        ⟨"b", "tB", "zed", none, none, 1, 1⟩] "a" ⟨none, some "active"⟩ 9)[1]?
      = some ⟨"b", "tB", "zed", none, none, 1, 1⟩ := by
  refine ⟨(c7_update_frame _ "a" ⟨none, none⟩ 9).2.1 rfl rfl, ?_, ?_⟩
  · have := (c7_update_frame
      [⟨"a", "tA", "octo", some "cus_1", none, 1, 1⟩,
       ⟨"b", "tB", "zed", none, none, 1, 1⟩] "a" ⟨none, some "active"⟩ 9).2.2
      0 ⟨"a", "tA", "octo", some "cus_1", none, 1, 1⟩ (by decide)
    rw [this]
    decide
  · have := (c7_update_frame
      [⟨"a", "tA", "octo", some "cus_1", none, 1, 1⟩,
       ⟨"b", "tB", "zed", none, none, 1, 1⟩] "a" ⟨none, some "active"⟩ 9).2.2
      1 ⟨"b", "tB", "zed", none, none, 1, 1⟩ (by decide)
    rw [this]
    decide

/-- C8. Delivering the same checkout-completed event (same metadata
session id and customer id) twice in succession yields the same end state
of the session store as delivering it once: the state after the two
deliveries at times t1 and t2 equals the state after the single delivery
at t2 (so with equal timestamps the repeat is exactly absorbed). -/
theorem c8_checkout_idempotent (st : Store) (sessionId : Option String)
    (cid : String) (t₁ t₂ : Nat) :
    applyCheckoutCompleted (applyCheckoutCompleted st sessionId cid t₁) sessionId cid t₂
      = applyCheckoutCompleted st sessionId cid t₂ := by
  cases sessionId with
  | none => rfl
  | some sid =>
    by_cases hs : sid = ""
    · simp [applyCheckoutCompleted, hs]
    · cases hget : getSession st sid with
      | none => simp [applyCheckoutCompleted, hs, hget]
      | some sess =>
        have hupd : ∀ (s' : Store) (t : Nat),
            updateSession s' sid ⟨some cid, some "active"⟩ t
              = s'.map (fun r => if r.id == sid
                  then applyUpdates ⟨some cid, some "active"⟩ t r else r) := by
          intro s' t
          rw [updateSession, if_neg]
          simp
        have hid : ∀ (t : Nat) (r : SessionRow),
            ((fun r => if r.id == sid
                then applyUpdates ⟨some cid, some "active"⟩ t r else r) r).id = r.id := by
          intro t r
          by_cases h : (r.id == sid) = true <;> simp [h, applyUpdates]
        have hacc : ∀ (X : Store) (t : Nat) (s' : Session),
            getSession X sid = some s' →
            applyCheckoutCompleted X (some sid) cid t
              = updateSession X sid ⟨some cid, some "active"⟩ t := by
          intro X t s' hX
          simp only [applyCheckoutCompleted]
          rw [if_neg (by simpa using hs), hX]
        have h1 : applyCheckoutCompleted st (some sid) cid t₁
            = st.map (fun r => if r.id == sid
                then applyUpdates ⟨some cid, some "active"⟩ t₁ r else r) := by
          rw [hacc st t₁ sess hget, hupd]
        obtain ⟨r, hr⟩ : ∃ r, st.find? (fun r => r.id == sid) = some r := by
          cases hfr : st.find? (fun r => r.id == sid) with
          | none => simp [getSession, hfr] at hget
          | some r => exact ⟨r, rfl⟩
        have hget2 : getSession (applyCheckoutCompleted st (some sid) cid t₁) sid
            = some (rowToSession (if r.id == sid
                then applyUpdates ⟨some cid, some "active"⟩ t₁ r else r)) := by
          rw [h1, getSession, find?_map_of_id_preserving st _ (hid t₁) sid, hr]
          rfl
        rw [hacc _ t₂ _ hget2, hacc st t₂ sess hget, h1, hupd, hupd, List.map_map]
        apply congrArg (fun f => List.map f st)
        funext x
        by_cases hx : (x.id == sid) = true
        · simp [Function.comp, hx, applyUpdates]
        · simp [Function.comp, hx]

/-- C9. For a session id not present in the store, getSession returns the
absence value (null) and updateSession returns with the store unmodified;
both are total functions of the store, so neither can throw across the
store boundary. -/
theorem c9_unknown_id_safe (st : Store) (sid : String) (u : SessionUpdates)
    (now : Nat) (h : ∀ r ∈ st, ¬ r.id = sid) :
    getSession st sid = none ∧ updateSession st sid u now = st := by
  have hfind : st.find? (fun r => r.id == sid) = none := by
    rw [List.find?_eq_none]
    intro r hr
    simpa using h r hr
  constructor
  · simp [getSession, hfind]
  · rw [updateSession]
    split
    · rfl
    · rw [List.map_congr_left fun r hr => if_neg (by simpa using h r hr)]
      exact List.map_id st

/-- C9, witness: the id "zz" is absent from a one-session store; reading it
gives null and a partial update of it changes nothing. -/
theorem c9_unknown_id_safe_witness :
    getSession [⟨"a", "tokA", "octo", none, none, 1, 1⟩] "zz" = none
    ∧ updateSession [⟨"a", "tokA", "octo", none, none, 1, 1⟩] "zz"
        ⟨some "cus_1", some "active"⟩ 9 = [⟨"a", "tokA", "octo", none, none, 1, 1⟩] :=
  c9_unknown_id_safe _ "zz" ⟨some "cus_1", some "active"⟩ 9 (by decide)

/-- C10. For a session whose subscriptionStatus was never set (still null),
the authenticated subscription read reports status "none" and the stored
customerId; the status field of the response is a plain string, so a client
never observes a null status. -/
theorem c10_status_none (st : Store) (auth : Option String) (s : Session)
    (hres : resolveSession st auth = some s) (hnone : s.subscriptionStatus = none) :
    subscriptionRead st auth = some ⟨s.customerId, "none"⟩ := by
  simp [subscriptionRead, hres, hnone]

/-- C10, witness: a session with a customer id but no status yet, read
through its own bearer token, reports customer_id as stored and status
"none". -/
theorem c10_status_none_witness :
    subscriptionRead [⟨"a", "tokA", "octo", some "cus_1", none, 1, 1⟩]
      (some "Bearer a") = some ⟨some "cus_1", "none"⟩ :=
  c10_status_none _ (some "Bearer a") ⟨"a", "tokA", "octo", some "cus_1", none⟩
    (by decide) (by decide)

end Spacebrr
